import Mathlib

/-!
Shallow embedding of the Persona editing form
(web/src/app/admin/personas/PersonaEditor.tsx).

The editor's state-bearing logic is embedded as pure Lean functions:
JavaScript values that can be null, a number or a string are modelled by an
inductive type with explicit JS truthiness; the Formik onSubmit handler, the
Yup cross-field test, the preview updater and the two list-field handlers are
translated directly from the source, with their side effects (setPopup,
setFinalPrompt, setFinalPromptError, setSubmitting, router.push, the
persistence calls) made explicit as fields of outcome records.
-/

/-- A JavaScript value held in the num_chunks form field: it starts as the
persona's stored number or null, and the field's onChange handler stores raw
strings. -/
inductive NumChunksValue where
  | null : NumChunksValue
  | num (n : Int) : NumChunksValue
  | str (s : String) : NumChunksValue
deriving DecidableEq

/-- JS truthiness for a num_chunks value: null, the number 0 and the empty
string are falsy, everything else is truthy. -/
def jsTruthy : NumChunksValue → Bool
  | NumChunksValue.null => false
  | NumChunksValue.num n => decide (n ≠ 0)
  | NumChunksValue.str s => decide (s ≠ "")

/-- An entry of the starter_messages form array. The seeded entries are
StarterMessage objects with name/description/message fields; the Add New
button pushes a bare JavaScript string (arrayHelpers.push("")), so an entry
is either an object or a raw string. -/
inductive StarterMessageValue where
  | obj (name description message : String) : StarterMessageValue
  | jstr (s : String) : StarterMessageValue
deriving DecidableEq

/-- The Formik values record of the Persona editor form (the initialValues
shape in PersonaEditor.tsx). -/
structure PersonaFormValues where
  name : String
  description : String
  system_prompt : String
  task_prompt : String
  disable_retrieval : Bool
  document_set_ids : List Int
  num_chunks : NumChunksValue
  include_citations : Bool
  llm_relevance_filter : Bool
  llm_model_version_override : Option String
  starter_messages : Option (List StarterMessageValue)
deriving DecidableEq

/-- A fetch-style response from createPersona/updatePersona: an ok flag and
the textual body returned by response.text(). -/
structure Response where
  ok : Bool
  body : String
deriving DecidableEq

/-- A popup message as passed to setPopup. -/
structure PopupMsg where
  type : String
  message : String
deriving DecidableEq

/-- Result of the Yup cross-field test together with the finalPromptError
state it writes via setFinalPromptError. The test function either returns
true explicitly or falls off the end (an undefined return, modelled none). -/
structure CrossFieldOutcome where
  result : Option Bool
  finalPromptError : String
deriving DecidableEq

/-- Embedding of the system-prompt-or-task-prompt Yup test in
PersonaEditor.tsx: each prompt is checked with JS truthiness before its
length is read; on success it clears finalPromptError and returns true, and
otherwise it sets finalPromptError and returns undefined. -/
def systemPromptOrTaskPromptTest (system_prompt task_prompt : String) : CrossFieldOutcome :=
  let systemPromptSpecified : Bool :=
    if system_prompt ≠ "" then decide (system_prompt.length > 0) else false
  let taskPromptSpecified : Bool :=
    if task_prompt ≠ "" then decide (task_prompt.length > 0) else false
  if systemPromptSpecified || taskPromptSpecified then
    { result := some true, finalPromptError := "" }
  else
    { result := none,
      finalPromptError := "Must provide at least one of System Prompt or Task Prompt" }

/-- Validity of the cross-field rule as its Yup caller consumes it: an
absent or falsy return value counts as failure. -/
def crossFieldValid (system_prompt task_prompt : String) : Bool :=
  match (systemPromptOrTaskPromptTest system_prompt task_prompt).result with
  | some b => b
  | none => false

/-- The effective chunk count computed at the start of onSubmit:
values.disable_retrieval ? 0 : values.num_chunks || 10, with the JS
short-circuit OR returning the left operand when it is truthy and 10
otherwise. -/
def effectiveNumChunks (disable_retrieval : Bool) (num_chunks : NumChunksValue) : NumChunksValue :=
  if disable_retrieval then NumChunksValue.num 0
  else if jsTruthy num_chunks then num_chunks else NumChunksValue.num 10

/-- The observable effects of one run of the onSubmit handler. -/
structure SubmitOutcome where
  popup : Option PopupMsg
  persistenceCalled : Bool
  dispatchedUpdate : Bool
  sentNumChunks : Option NumChunksValue
  navigated : Bool
  reenabledSubmit : Bool
  valuesAfter : PersonaFormValues
deriving DecidableEq

/-- Embedding of the Formik onSubmit handler in PersonaEditor.tsx. Inputs
are the current finalPromptError state, whether the editor is in update mode,
the form values, and the pair of responses the persistence collaborator
would return (the persona response may be absent). The JS test if (error)
is truthy only for a non-null, non-empty string, and a later error
assignment overwrites an earlier one. -/
def onSubmit (finalPromptError : String) (isUpdate : Bool) (values : PersonaFormValues)
    (promptResponse : Response) (personaResponse : Option Response) : SubmitOutcome :=
  if finalPromptError ≠ "" then
    { popup := some { type := "error", message := "Cannot submit while there are errors in the form!" }
      persistenceCalled := false
      dispatchedUpdate := false
      sentNumChunks := none
      navigated := false
      reenabledSubmit := false
      valuesAfter := values }
  else
    let numChunks := effectiveNumChunks values.disable_retrieval values.num_chunks
    let error : Option String :=
      let promptError := if promptResponse.ok then none else some promptResponse.body
      match personaResponse with
      | some personaResp => if personaResp.ok then promptError else some personaResp.body
      | none => promptError
    match error with
    | some e =>
      if e = "" then
        { popup := none
          persistenceCalled := true
          dispatchedUpdate := isUpdate
          sentNumChunks := some numChunks
          navigated := true
          reenabledSubmit := false
          valuesAfter := values }
      else
        { popup := some { type := "error", message := "Failed to create Persona - " ++ e }
          persistenceCalled := true
          dispatchedUpdate := isUpdate
          sentNumChunks := some numChunks
          navigated := false
          reenabledSubmit := true
          valuesAfter := values }
    | none =>
      { popup := none
        persistenceCalled := true
        dispatchedUpdate := isUpdate
        sentNumChunks := some numChunks
        navigated := true
        reenabledSubmit := false
        valuesAfter := values }

/-- The error-accumulation steps of onSubmit on their own: error starts
null, is set to the prompt response body when that response is not ok, and
is then overwritten by the persona response body when that response exists
and is not ok. -/
def lastSubmitError (promptResponse : Response) (personaResponse : Option Response) : Option String :=
  let promptError := if promptResponse.ok then none else some promptResponse.body
  match personaResponse with
  | some personaResp => if personaResp.ok then promptError else some personaResp.body
  | none => promptError

/-- A response from the buildFinalPrompt preview collaborator. -/
structure PreviewResponse where
  ok : Bool
  final_prompt_template : String
deriving DecidableEq

/-- The state observable after one run of triggerFinalPromptUpdate. -/
structure PreviewUpdateOutcome where
  finalPrompt : Option String
  popup : Option PopupMsg
  finalPromptErrorSet : Option String
deriving DecidableEq

/-- Embedding of triggerFinalPromptUpdate in PersonaEditor.tsx: only when
the buildFinalPrompt response is ok is the finalPrompt state replaced by the
returned final_prompt_template; nothing else is touched in either branch. -/
def triggerFinalPromptUpdate (prevFinalPrompt : Option String)
    (response : PreviewResponse) : PreviewUpdateOutcome :=
  if response.ok then
    { finalPrompt := some response.final_prompt_template
      popup := none
      finalPromptErrorSet := none }
  else
    { finalPrompt := prevFinalPrompt
      popup := none
      finalPromptErrorSet := none }

/-- Embedding of the num_chunks entry of the Yup validation schema:
Yup.number().max(20).nullable(). A null value is valid; a numeric value is
valid exactly when it is at most 20 (no lower bound is declared). -/
def numChunksSchemaValid : Option Int → Bool
  | none => true
  | some n => decide (n ≤ 20)

/-- JS Array.prototype.indexOf over the document_set_ids list: the index of
the first occurrence, or -1 when absent. -/
def jsIndexOf (ids : List Int) (id : Int) : Int :=
  if id ∈ ids then (ids.indexOf id : Nat) else -1

/-- Embedding of the document-set chip onClick handler in PersonaEditor.tsx:
ind = values.document_set_ids.indexOf(documentSet.id); when ind is not -1
the entry at ind is removed (arrayHelpers.remove(ind)), otherwise the id is
appended (arrayHelpers.push(documentSet.id)). -/
def documentSetIdsToggle (ids : List Int) (id : Int) : List Int :=
  let ind := jsIndexOf ids id
  if ind ≠ -1 then ids.eraseIdx ind.toNat else ids ++ [id]

/-- Embedding of the Add New button for starter messages in
PersonaEditor.tsx: arrayHelpers.push("") appends the bare empty string. -/
def addNewStarterMessage (starter_messages : List StarterMessageValue) : List StarterMessageValue :=
  starter_messages ++ [StarterMessageValue.jstr ""]

/-- Embedding of the test of the regular expression matching one or more
characters from 0 to 9, anchored at both ends, used by the num_chunks
onChange handler. -/
def numChunksRegexTest (value : String) : Bool :=
  decide (value.length > 0) && value.data.all (fun c => decide ('0' ≤ c) && decide (c ≤ '9'))

/-- Embedding of the num_chunks TextFormField onChange handler in
PersonaEditor.tsx: the raw input string is stored (as a string) only when it
is empty or matches the digits-only regular expression; otherwise the stored
value is left unchanged. -/
def numChunksOnChange (storedNumChunks : NumChunksValue) (value : String) : NumChunksValue :=
  if value = "" || numChunksRegexTest value then NumChunksValue.str value else storedNumChunks

/-- Concrete form values used to instantiate theorems: the create-mode draft
of end-to-end scenario 1 of the specification. -/
def sampleValues : PersonaFormValues :=
  { name := "Support Bot"
    description := "helps support"
    system_prompt := "You are helpful."
    task_prompt := ""
    disable_retrieval := false
    document_set_ids := []
    num_chunks := NumChunksValue.null
    include_citations := true
    llm_relevance_filter := false
    llm_model_version_override := none
    starter_messages := none }

/-- A non-empty string has positive length. -/
theorem string_length_pos {s : String} (h : s ≠ "") : 0 < s.length := by
  rcases s with ⟨data⟩
  cases data with
  | nil => exact absurd rfl h
  | cons c cs => simp [String.length]

/-- The character predicate of the digits-only regular expression agrees
with Char.isDigit. -/
theorem char_digit_pred (c : Char) : (decide ('0' ≤ c) && decide (c ≤ '9')) = c.isDigit := by
  rfl

/-- Erasing at the index just past a list removes a single appended
element. -/
theorem eraseIdx_append_length {α : Type} (l : List α) (a : α) :
    (l ++ [a]).eraseIdx l.length = l := by
  induction l with
  | nil => rfl
  | cons x xs ih => simp [List.eraseIdx_cons_succ, ih]

/-- C2: the cross-field system-prompt-or-task-prompt validation is valid,
with an absent or falsy return treated as failure, exactly when the system
prompt or the task prompt is non-empty; the test itself only ever returns an
explicit true or no value at all. -/
theorem c2_cross_field_valid_iff (system_prompt task_prompt : String) :
    (crossFieldValid system_prompt task_prompt = true ↔
      (system_prompt ≠ "" ∨ task_prompt ≠ "")) ∧
    ((systemPromptOrTaskPromptTest system_prompt task_prompt).result = some true ∨
      (systemPromptOrTaskPromptTest system_prompt task_prompt).result = none) := by
  by_cases hs : system_prompt = "" <;> by_cases ht : task_prompt = ""
  · simp [crossFieldValid, systemPromptOrTaskPromptTest, hs, ht]
  · simp [crossFieldValid, systemPromptOrTaskPromptTest, hs, ht, string_length_pos ht]
  · simp [crossFieldValid, systemPromptOrTaskPromptTest, hs, ht, string_length_pos hs]
  · simp [crossFieldValid, systemPromptOrTaskPromptTest, hs, ht, string_length_pos hs]

/-- C5: a preview request that returns ok replaces the displayed preview by
the returned final prompt template, and a failed request leaves the previous
preview unchanged; neither path surfaces a popup or a final-prompt error. -/
theorem c5_preview_update (prevFinalPrompt : Option String) (template : String) :
    triggerFinalPromptUpdate prevFinalPrompt { ok := true, final_prompt_template := template }
      = { finalPrompt := some template, popup := none, finalPromptErrorSet := none } ∧
    triggerFinalPromptUpdate prevFinalPrompt { ok := false, final_prompt_template := template }
      = { finalPrompt := prevFinalPrompt, popup := none, finalPromptErrorSet := none } := by
  exact ⟨rfl, rfl⟩

/-- C6 counterexample: the validation schema accepts the negative value -5
for num_chunks, refuting the claim that every negative value is rejected. -/
theorem c6_counterexample :
    numChunksSchemaValid (some (-5)) = true ∧ (-5 : Int) < 0 := by
  exact ⟨rfl, by decide⟩

/-- C6 amended: per-field validation of num_chunks accepts a value exactly
when it is null or a number at most 20; no lower bound is enforced. -/
theorem c6_schema_valid_iff (v : Option Int) :
    numChunksSchemaValid v = true ↔ (v = none ∨ ∃ n : Int, v = some n ∧ n ≤ 20) := by
  cases v <;> simp [numChunksSchemaValid]

/-- C9 counterexample: the Add New action on an empty starter-message list
does not append an object whose name, description and message are empty
strings; it appends the bare empty string. -/
theorem c9_counterexample :
    addNewStarterMessage [] ≠ [StarterMessageValue.obj "" "" ""] := by
  decide

/-- C9 amended: the Add New action appends exactly one entry at the end,
leaves all prior entries unchanged, and the appended entry is the raw empty
string rather than a blank StarterMessage object. -/
theorem c9_add_new_appends_empty_string (starter_messages : List StarterMessageValue) :
    (addNewStarterMessage starter_messages).length = starter_messages.length + 1 ∧
    (addNewStarterMessage starter_messages).take starter_messages.length = starter_messages ∧
    (addNewStarterMessage starter_messages).getLast? = some (StarterMessageValue.jstr "") := by
  refine ⟨?_, ?_, ?_⟩ <;>
    simp [addNewStarterMessage, List.take_left, List.getLast?_concat]

/-- C10: the num_chunks change handler stores the incoming string exactly
when it is empty or consists solely of the digits 0 to 9; any other input
leaves the stored value unchanged, so whenever the handler changes the
stored value the new value is a digits-only string. -/
theorem c10_num_chunks_on_change (storedNumChunks : NumChunksValue) (value : String) :
    (value.data.all Char.isDigit = true →
      numChunksOnChange storedNumChunks value = NumChunksValue.str value) ∧
    (value.data.all Char.isDigit = false →
      numChunksOnChange storedNumChunks value = storedNumChunks) ∧
    (numChunksOnChange storedNumChunks value ≠ storedNumChunks →
      value.data.all Char.isDigit = true) := by
  have hpred : (fun c => decide ('0' ≤ c) && decide (c ≤ '9')) = Char.isDigit :=
    funext char_digit_pred
  by_cases hv : value = ""
  · subst hv
    refine ⟨fun _ => rfl, fun hfalse => by simp at hfalse, fun _ => rfl⟩
  · have hlen : 0 < value.length := string_length_pos hv
    by_cases hd : value.data.all Char.isDigit = true
    · have hreg : numChunksRegexTest value = true := by
        simp [numChunksRegexTest, hlen, hpred, hd]
      refine ⟨fun _ => ?_, fun hfalse => by rw [hfalse] at hd; exact absurd hd (by simp),
        fun _ => hd⟩
      simp [numChunksOnChange, hreg]
    · have hd' : value.data.all Char.isDigit = false := by
        cases h : value.data.all Char.isDigit
        · rfl
        · exact absurd h hd
      have hreg : numChunksRegexTest value = false := by
        simp [numChunksRegexTest, hpred]
        intro _
        simpa using hd'
      have hunchanged : numChunksOnChange storedNumChunks value = storedNumChunks := by
        simp [numChunksOnChange, hv, hreg]
      exact ⟨fun htrue => absurd htrue hd, fun _ => hunchanged,
        fun hne => absurd hunchanged hne⟩

/-- C10 witness: an input carrying a minus sign leaves a stored numeric
value unchanged. -/
theorem c10_num_chunks_on_change_witness :
    numChunksOnChange (NumChunksValue.num 5) "-3" = NumChunksValue.num 5 :=
  (c10_num_chunks_on_change (NumChunksValue.num 5) "-3").2.1 (by decide)

/-- With no pending cross-field error, onSubmit always calls the
persistence collaborator and sends the effective chunk count. -/
theorem onSubmit_sends_effective_chunks (isUpdate : Bool) (values : PersonaFormValues)
    (promptResponse : Response) (personaResponse : Option Response) :
    (onSubmit "" isUpdate values promptResponse personaResponse).sentNumChunks
      = some (effectiveNumChunks values.disable_retrieval values.num_chunks) ∧
    (onSubmit "" isUpdate values promptResponse personaResponse).persistenceCalled = true := by
  unfold onSubmit
  simp only [ne_eq, not_true_eq_false, if_false]
  split
  · split <;> exact ⟨rfl, rfl⟩
  · exact ⟨rfl, rfl⟩

/-- C1 amended: the chunk count passed to the persistence collaborator is 0
when disableRetrieval is set; otherwise it is 10 when the stored num_chunks
is JS-falsy (null, the number 0, or the empty string) and the stored
num_chunks itself in every other case. -/
theorem c1_effective_chunk_count (isUpdate : Bool) (values : PersonaFormValues)
    (promptResponse : Response) (personaResponse : Option Response) :
    (values.disable_retrieval = true →
      (onSubmit "" isUpdate values promptResponse personaResponse).sentNumChunks
        = some (NumChunksValue.num 0)) ∧
    (values.disable_retrieval = false → jsTruthy values.num_chunks = false →
      (onSubmit "" isUpdate values promptResponse personaResponse).sentNumChunks
        = some (NumChunksValue.num 10)) ∧
    (values.disable_retrieval = false → jsTruthy values.num_chunks = true →
      (onSubmit "" isUpdate values promptResponse personaResponse).sentNumChunks
        = some values.num_chunks) := by
  have hsent := (onSubmit_sends_effective_chunks isUpdate values promptResponse personaResponse).1
  refine ⟨fun hd => ?_, fun hd ht => ?_, fun hd ht => ?_⟩
  · rw [hsent]; simp [effectiveNumChunks, hd]
  · rw [hsent]; simp [effectiveNumChunks, hd, ht]
  · rw [hsent]; simp [effectiveNumChunks, hd, ht]

/-- C1 witness: a draft with stored num_chunks 15 and retrieval disabled is
submitted with an effective chunk count of 0. -/
theorem c1_effective_chunk_count_witness :
    (onSubmit "" false
        { sampleValues with disable_retrieval := true, num_chunks := NumChunksValue.num 15 }
        { ok := true, body := "" } none).sentNumChunks
      = some (NumChunksValue.num 0) :=
  (c1_effective_chunk_count false
    { sampleValues with disable_retrieval := true, num_chunks := NumChunksValue.num 15 }
    { ok := true, body := "" } none).1 rfl

/-- C1 counterexample: with retrieval enabled and a stored (non-null)
num_chunks of 0, the submitted chunk count is not the stored num_chunks;
the JS OR treats 0 as falsy and substitutes 10. -/
theorem c1_counterexample :
    ({ sampleValues with num_chunks := NumChunksValue.num 0 } : PersonaFormValues).disable_retrieval
        = false ∧
    NumChunksValue.num 0 ≠ NumChunksValue.null ∧
    (onSubmit "" false { sampleValues with num_chunks := NumChunksValue.num 0 }
        { ok := true, body := "" } none).sentNumChunks
      ≠ some (NumChunksValue.num 0) := by
  decide

/-- C3: while the cross-field validation error is set, submitting produces
only the blocking popup: the persistence collaborator is not called, no
navigation happens, and the form values are left unchanged. -/
theorem c3_submit_blocked (finalPromptError : String) (isUpdate : Bool)
    (values : PersonaFormValues) (promptResponse : Response)
    (personaResponse : Option Response) (h : finalPromptError ≠ "") :
    (onSubmit finalPromptError isUpdate values promptResponse personaResponse).popup
        = some { type := "error", message := "Cannot submit while there are errors in the form!" } ∧
    (onSubmit finalPromptError isUpdate values promptResponse personaResponse).persistenceCalled
        = false ∧
    (onSubmit finalPromptError isUpdate values promptResponse personaResponse).navigated = false ∧
    (onSubmit finalPromptError isUpdate values promptResponse personaResponse).valuesAfter
        = values := by
  simp [onSubmit, h]

/-- C3 witness: with the cross-field error message set, a concrete draft is
blocked at submission without a persistence call. -/
theorem c3_submit_blocked_witness :
    (onSubmit "Must provide at least one of System Prompt or Task Prompt" false sampleValues
        { ok := true, body := "" } none).persistenceCalled = false ∧
    (onSubmit "Must provide at least one of System Prompt or Task Prompt" false sampleValues
        { ok := true, body := "" } none).navigated = false :=
  ⟨(c3_submit_blocked "Must provide at least one of System Prompt or Task Prompt" false
      sampleValues { ok := true, body := "" } none (by decide)).2.1,
   (c3_submit_blocked "Must provide at least one of System Prompt or Task Prompt" false
      sampleValues { ok := true, body := "" } none (by decide)).2.2.1⟩

/-- C4 amended: with no pending cross-field error, submission navigates
exactly when the final accumulated error is null or the empty string; when
the accumulated error is a non-empty string (the last failing response body,
the persona response overwriting the prompt response), that body is surfaced
in a single popup, navigation does not happen, the submit control is
re-enabled, and the form values are unchanged. -/
theorem c4_submission_outcome (isUpdate : Bool) (values : PersonaFormValues)
    (promptResponse : Response) (personaResponse : Option Response) :
    ((onSubmit "" isUpdate values promptResponse personaResponse).navigated = true ↔
      (lastSubmitError promptResponse personaResponse = none ∨
        lastSubmitError promptResponse personaResponse = some "")) ∧
    ((onSubmit "" isUpdate values promptResponse personaResponse).navigated = true →
      (onSubmit "" isUpdate values promptResponse personaResponse).popup = none ∧
      (onSubmit "" isUpdate values promptResponse personaResponse).valuesAfter = values) ∧
    (∀ e : String, lastSubmitError promptResponse personaResponse = some e → e ≠ "" →
      (onSubmit "" isUpdate values promptResponse personaResponse).popup
          = some { type := "error", message := "Failed to create Persona - " ++ e } ∧
      (onSubmit "" isUpdate values promptResponse personaResponse).navigated = false ∧
      (onSubmit "" isUpdate values promptResponse personaResponse).reenabledSubmit = true ∧
      (onSubmit "" isUpdate values promptResponse personaResponse).valuesAfter = values) := by
  rcases promptResponse with ⟨pok, pbody⟩
  rcases personaResponse with _ | ⟨qok, qbody⟩
  · cases pok
    · by_cases hb : pbody = "" <;> simp [onSubmit, lastSubmitError, hb]
    · simp [onSubmit, lastSubmitError]
  · cases pok <;> cases qok
    · by_cases hq : qbody = "" <;> simp [onSubmit, lastSubmitError, hq]
    · by_cases hb : pbody = "" <;> simp [onSubmit, lastSubmitError, hb]
    · by_cases hq : qbody = "" <;> simp [onSubmit, lastSubmitError, hq]
    · simp [onSubmit, lastSubmitError]

/-- C4 witness: a concrete submission whose persona response fails with a
non-empty body surfaces that body and does not navigate. -/
theorem c4_submission_outcome_witness :
    (onSubmit "" false sampleValues { ok := true, body := "" }
        (some { ok := false, body := "oops" })).popup
      = some { type := "error", message := "Failed to create Persona - oops" } ∧
    (onSubmit "" false sampleValues { ok := true, body := "" }
        (some { ok := false, body := "oops" })).navigated = false :=
  ⟨((c4_submission_outcome false sampleValues { ok := true, body := "" }
      (some { ok := false, body := "oops" })).2.2 "oops" rfl (by decide)).1,
   ((c4_submission_outcome false sampleValues { ok := true, body := "" }
      (some { ok := false, body := "oops" })).2.2 "oops" rfl (by decide)).2.1⟩

/-- C4 counterexample: when both responses fail, the surfaced message
carries the second (persona) error body, not the first encountered one; and
a failing prompt response whose body is the empty string still navigates,
refuting success-iff-all-ok. -/
theorem c4_counterexample :
    ((onSubmit "" false sampleValues { ok := false, body := "prompt error A" }
        (some { ok := false, body := "persona error B" })).popup
      = some { type := "error", message := "Failed to create Persona - persona error B" } ∧
      ("Failed to create Persona - persona error B" : String)
        ≠ "Failed to create Persona - prompt error A") ∧
    ((onSubmit "" false sampleValues { ok := false, body := "" } none).navigated = true ∧
      ({ ok := false, body := "" } : Response).ok = false) := by
  decide

/-- C7: toggling a document-set id that is absent appends it at the end, and
toggling it again removes exactly that occurrence, restoring the original
list content and order. -/
theorem c7_toggle_add_remove (ids : List Int) (id : Int) (h : id ∉ ids) :
    documentSetIdsToggle (documentSetIdsToggle ids id) id = ids := by
  have h1 : documentSetIdsToggle ids id = ids ++ [id] := by
    simp [documentSetIdsToggle, jsIndexOf, h]
  have hmem : id ∈ ids ++ [id] := by simp
  have hidx : (ids ++ [id]).indexOf id = ids.length := by
    rw [List.indexOf_append_of_not_mem h]
    simp
  have hne : ((ids.length : Nat) : Int) ≠ -1 := by omega
  rw [h1]
  simp only [documentSetIdsToggle, jsIndexOf, if_pos hmem, hidx, if_pos hne]
  simpa using eraseIdx_append_length ids id

/-- C7 witness: toggling 3 into the list of ids 1 and 2 and toggling it
again restores the list. -/
theorem c7_toggle_add_remove_witness :
    documentSetIdsToggle (documentSetIdsToggle [1, 2] 3) 3 = [1, 2] :=
  c7_toggle_add_remove [1, 2] 3 (by decide)

/-- C8: toggling any id on a duplicate-free document-set id list yields a
duplicate-free list, whether the toggle appends or removes. -/
theorem c8_toggle_preserves_nodup (ids : List Int) (id : Int) (h : ids.Nodup) :
    (documentSetIdsToggle ids id).Nodup := by
  by_cases hm : id ∈ ids
  · have hne : ((ids.indexOf id : Nat) : Int) ≠ -1 := by omega
    simp only [documentSetIdsToggle, jsIndexOf, if_pos hm, if_pos hne]
    exact List.Nodup.sublist (List.eraseIdx_sublist _ _) h
  · have heq : jsIndexOf ids id = -1 := by simp [jsIndexOf, hm]
    simp only [documentSetIdsToggle, heq, ne_eq, not_true_eq_false, if_false]
    simp [List.nodup_append, h, hm]

/-- C8 witness: toggling the id 2 out of the duplicate-free list of ids 1
and 2 leaves a duplicate-free list. -/
theorem c8_toggle_preserves_nodup_witness :
    (documentSetIdsToggle [1, 2] 2).Nodup :=
  c8_toggle_preserves_nodup [1, 2] 2 (by decide)
